import Mathlib

/-
Verification of the persistence layer of the customchatfree repository
(src/services/database.py) against its natural-language specification.

The Python module is shallowly embedded: the mutable SQLite database becomes
an explicit `DB` value threaded through every operation, a Python function
that may raise becomes a Lean function into `Except DbExc`, and committing a
transaction corresponds to returning the updated `DB` inside `Except.ok`
while a rollback corresponds to returning `Except.error` (the caller keeps
the pre-call state).  Clock readings (`datetime.now().isoformat()`) are
passed in as explicit string parameters.  Python string primitives that the
source uses (`str.strip`, `str.lower`, substring containment, SQLite TEXT
comparison) are modelled by executable helpers over the character list of a
`String`.
-/

/-! ### Python / SQLite string primitives -/

/-- Model of Python `str.strip()`: removes whitespace from both ends. -/
def pyStrip (s : String) : String :=
  ⟨((s.data.dropWhile Char.isWhitespace).reverse.dropWhile Char.isWhitespace).reverse⟩

/-- Model of Python `str.lower()` (character-wise lowering). -/
def pyLower (s : String) : String :=
  ⟨s.data.map Char.toLower⟩

/-- Does the character list contain `pat` as a contiguous sublist?
    Models the Python `in` test on strings. -/
def hasSubstringAux (pat : List Char) : List Char → Bool
  | [] => pat.isEmpty
  | c :: rest => List.isPrefixOf pat (c :: rest) || hasSubstringAux pat rest

/-- Model of Python `pat in s` for strings. -/
def pyContains (s pat : String) : Bool :=
  hasSubstringAux pat.data s.data

/-- Lexicographic comparison of character lists by code point, modelling
    SQLite's default BINARY collation on TEXT values (identical to byte
    order for the ASCII ISO-8601 timestamps the source stores). -/
def charListLe : List Char → List Char → Bool
  | [], _ => true
  | _ :: _, [] => false
  | a :: as, b :: bs => if a < b then true else if b < a then false else charListLe as bs

/-- SQLite TEXT comparison, non-strict. -/
def sqlTextLe (a b : String) : Bool := charListLe a.data b.data

/-- SQLite TEXT comparison, strict. -/
def sqlTextLt (a b : String) : Bool := sqlTextLe a b && !(sqlTextLe b a)

/-! ### Exceptions -/

/-- The exceptions the source can raise or catch: Python `ValueError`
    (validation and referential failures), `sqlite3.OperationalError`,
    any other `sqlite3.Error`, and any other exception. -/
inductive DbExc where
  | valueError (msg : String)
  | operationalError (msg : String)
  | sqliteError (msg : String)
  | otherError (msg : String)
deriving Repr, DecidableEq

instance {ε α : Type} [DecidableEq ε] [DecidableEq α] : DecidableEq (Except ε α)
  | Except.ok a, Except.ok b =>
      if h : a = b then Decidable.isTrue (by rw [h]) else Decidable.isFalse (by simp [h])
  | Except.ok _, Except.error _ => Decidable.isFalse (by simp)
  | Except.error _, Except.ok _ => Decidable.isFalse (by simp)
  | Except.error e, Except.error f =>
      if h : e = f then Decidable.isTrue (by rw [h]) else Decidable.isFalse (by simp [h])

/-! ### Retry policy: `database_transaction` (src/services/database.py lines 102-127)

The context manager makes up to `max_retries` attempts to acquire a
transaction and run the enclosed block.  An attempt is modelled by an oracle
`f : Nat → Except DbExc Unit` giving the outcome of attempt number `n`
(0-based): `Except.ok ()` when the acquisition and the enclosed block
succeed, `Except.error e` when they raise `e`.  The trace records how many
attempts were started, the `time.sleep` delays actually performed
(in milliseconds; the source's 0.1 s becomes 100), and the final outcome. -/

def max_retries : Nat := 3

/-- An exception is retried iff it is an `sqlite3.OperationalError` whose
    lowered message contains "database is locked" (line 115). -/
def isRetryableLockError : DbExc → Bool
  | DbExc.operationalError msg => pyContains (pyLower msg) "database is locked"
  | _ => false

structure RetryTrace where
  attempts : Nat
  sleeps_ms : List Nat
  outcome : Except DbExc Unit
deriving Repr, DecidableEq

/-- The `for attempt in range(max_retries)` loop of `database_transaction`,
    structurally recursing on the remaining iteration count.  `attempt` is
    the 0-based loop index, `delay_ms` is the current `retry_delay`.
    Falling out of the loop reaches the closing
    `raise sqlite3.OperationalError("Max retries exceeded ...")` (line 127). -/
def database_transaction_loop (f : Nat → Except DbExc Unit) :
    Nat → Nat → Nat → List Nat → RetryTrace
  | 0, attempt, _, sleeps =>
      { attempts := attempt, sleeps_ms := sleeps,
        outcome := Except.error
          (DbExc.operationalError "Max retries exceeded for database transaction") }
  | remaining + 1, attempt, delay_ms, sleeps =>
      match f attempt with
      | Except.ok _ =>
          { attempts := attempt + 1, sleeps_ms := sleeps, outcome := Except.ok () }
      | Except.error e =>
          if isRetryableLockError e && decide (attempt < max_retries - 1) then
            database_transaction_loop f remaining (attempt + 1) (delay_ms * 2)
              (sleeps ++ [delay_ms])
          else
            { attempts := attempt + 1, sleeps_ms := sleeps, outcome := Except.error e }

/-- `database_transaction` (lines 102-127): 3 attempts, initial delay 0.1 s. -/
def database_transaction (f : Nat → Except DbExc Unit) : RetryTrace :=
  database_transaction_loop f max_retries 0 100 []

/-! ### C1 theorems -/

/-- C1 (counterexample): under persistent lock contention
    `database_transaction` makes 3 attempts but sleeps only twice (100 ms
    and 200 ms) — not three times with a 400 ms delay — and the failure it
    finally raises is the original "database is locked" operational error,
    not the dedicated "Max retries exceeded" exhaustion error (whose raise
    on line 127 is unreachable). -/
theorem retry_exhaustion_counterexample :
    (database_transaction fun _ =>
        Except.error (DbExc.operationalError "database is locked")) =
      { attempts := 3, sleeps_ms := [100, 200],
        outcome := Except.error (DbExc.operationalError "database is locked") } ∧
    ¬ (database_transaction fun _ =>
        Except.error (DbExc.operationalError "database is locked")).sleeps_ms =
      [100, 200, 400] ∧
    ¬ (database_transaction fun _ =>
        Except.error (DbExc.operationalError "database is locked")).outcome =
      Except.error
        (DbExc.operationalError "Max retries exceeded for database transaction") := by
  refine ⟨rfl, by decide, by decide⟩

/-- C1 (amended): if every attempt raises a lock-contention error,
    `database_transaction` makes exactly 3 attempts with backoff delays of
    100 ms and 200 ms between them and then re-raises the original lock
    error itself; a failure that is not a lock-contention failure propagates
    immediately after a single attempt, without any sleep. -/
theorem retry_policy_amended :
    (∀ e, isRetryableLockError e = true →
      database_transaction (fun _ => Except.error e) =
        { attempts := 3, sleeps_ms := [100, 200], outcome := Except.error e }) ∧
    (∀ f e, isRetryableLockError e = false → f 0 = Except.error e →
      database_transaction f =
        { attempts := 1, sleeps_ms := [], outcome := Except.error e }) := by
  constructor
  · intro e h
    simp [database_transaction, database_transaction_loop, max_retries, h]
  · intro f e h hf
    simp [database_transaction, database_transaction_loop, max_retries, h, hf]

/-- Witness for C1: the amended behaviour evaluated at a persistent
    "database is locked" oracle and at a non-retryable operational error. -/
theorem retry_policy_amended_witness :
    database_transaction (fun _ =>
        Except.error (DbExc.operationalError "database is locked")) =
      { attempts := 3, sleeps_ms := [100, 200],
        outcome := Except.error (DbExc.operationalError "database is locked") } ∧
    database_transaction (fun _ =>
        Except.error (DbExc.operationalError "disk I/O error")) =
      { attempts := 1, sleeps_ms := [],
        outcome := Except.error (DbExc.operationalError "disk I/O error") } :=
  ⟨retry_policy_amended.1 _ (by decide), retry_policy_amended.2 _ _ (by decide) rfl⟩

/-! ### Data model (schema of src/services/database.py lines 130-203)

Each table is a list of rows in insertion order together with the next
AUTOINCREMENT value; `cursor.lastrowid` after a successful INSERT is the id
just assigned, so the source's "if lastrowid is None" guards can never fire
and are not represented. -/

structure UserRow where
  user_id : Int
  username : String
deriving Repr, DecidableEq

structure RoleRow where
  role_id : Int
  user_id : Int
  name : String
  description : String
deriving Repr, DecidableEq

structure ConversationRow where
  conversation_id : Int
  user_id : Int
  start_time : String
  role_id : Option Int
deriving Repr, DecidableEq

structure MessageRow where
  message_id : Int
  conversation_id : Int
  role : String
  content : String
  model : String
  timestamp : String
deriving Repr, DecidableEq

structure LogRow where
  log_id : Int
  timestamp : String
  action : String
  details : String
deriving Repr, DecidableEq

structure DB where
  users : List UserRow
  roles : List RoleRow
  conversations : List ConversationRow
  messages : List MessageRow
  logs : List LogRow
  next_user_id : Int := 1
  next_role_id : Int := 1
  next_conversation_id : Int := 1
  next_message_id : Int := 1
  next_log_id : Int := 1
deriving Repr, DecidableEq

/-- A value in a result row dictionary. -/
inductive SqlValue where
  | intV (i : Int)
  | strV (s : String)
deriving Repr, DecidableEq

/-- The database the caller observes after an operation: the committed
    state on success, the unchanged pre-call state on rollback (the
    transaction context manager rolls back whenever the body raises). -/
def afterDB {α : Type} (res : Except DbExc (α × DB)) (db0 : DB) : DB :=
  match res with
  | Except.ok (_, db) => db
  | Except.error _ => db0

/-- Number of conversation rows belonging to a user. -/
def conversationCount (db : DB) (user_id : Int) : Nat :=
  (db.conversations.filter (fun c => c.user_id == user_id)).length

/-! ### SQL ORDER BY -/

/-- Insert into a list sorted by `le` (helper for `orderByLe`). -/
def insertByLe {α : Type} (le : α → α → Bool) (a : α) : List α → List α
  | [] => [a]
  | b :: bs => if le a b then a :: b :: bs else b :: insertByLe le a bs

/-- Sorting a result set, modelling SQL ORDER BY. -/
def orderByLe {α : Type} (le : α → α → Bool) : List α → List α
  | [] => []
  | a :: as => insertByLe le a (orderByLe le as)

/-! ### Data access operations (src/services/database.py)

Every mutating operation's first in-transaction statement is a
`SELECT ... FOR UPDATE` existence/lookup check.  `FOR UPDATE` is not part
of SQLite's grammar, so executing that statement raises
`sqlite3.OperationalError: near "FOR": syntax error` unconditionally,
whatever the store holds; the transaction is rolled back, and since the
message does not contain "database is locked" the retry policy re-raises
the error without retry.  Everything after that statement in those
function bodies is unreachable and is therefore absent from the embedding;
each doc comment names the unreachable remainder. -/

/-- The exception SQLite raises for a `SELECT ... FOR UPDATE` statement. -/
def forUpdateSyntaxError : DbExc :=
  DbExc.operationalError "near \"FOR\": syntax error"

/-- `log_action` (lines 407-442): validates, then inserts one row into
    `logs`.  The state effect is the same whether a caller-supplied cursor
    is used (lines 417-425) or a fresh transaction is opened (lines
    427-442); `now` is the clock reading of line 415. -/
def log_action (now action details : String) (db : DB) : Except DbExc (Int × DB) :=
  if pyStrip action = "" then
    Except.error (DbExc.valueError "action must be a non-empty string")
  else
    let log_id := db.next_log_id
    Except.ok (log_id,
      { db with logs := db.logs ++ [⟨log_id, now, pyStrip action, details⟩],
                next_log_id := log_id + 1 })

/-- `get_user_id` (lines 305-331).  After validation, the first statement
    inside the transaction is line 314's
    `SELECT user_id FROM users WHERE username = ? FOR UPDATE`, which raises
    the FOR UPDATE syntax error for every store state.  The get-or-create
    lookup, the user INSERT and the "User created" `log_action` of lines
    315-327 are unreachable.  `log_now` is the clock reading the
    unreachable `log_action` call would take (kept so every operation
    receives its clock readings explicitly). -/
def get_user_id (log_now : String) (db : DB) (username : String) :
    Except DbExc (Int × DB) :=
  if pyStrip username = "" then
    Except.error (DbExc.valueError "username must be a non-empty string")
  else
    Except.error forUpdateSyntaxError

/-- `create_role` (lines 206-236).  After validation, line 219's
    `SELECT user_id FROM users WHERE user_id = ? FOR UPDATE` raises the
    FOR UPDATE syntax error for every store state; the existence ValueError
    and the role INSERT of lines 220-232 are unreachable (the body contains
    no `log_action` call anywhere). -/
def create_role (db : DB) (user_id : Int) (name description : String) :
    Except DbExc (Int × DB) :=
  if user_id ≤ 0 then
    Except.error (DbExc.valueError "user_id must be a positive integer")
  else if pyStrip name = "" then
    Except.error (DbExc.valueError "name must be a non-empty string")
  else
    Except.error forUpdateSyntaxError

/-- `get_roles_by_user` (lines 238-253): read-only, no defined order. -/
def get_roles_by_user (db : DB) (user_id : Int) :
    Except DbExc (List (List (String × SqlValue)) × DB) :=
  if user_id ≤ 0 then
    Except.error (DbExc.valueError "user_id must be a positive integer")
  else
    let rows := db.roles.filter (fun r => r.user_id == user_id)
    Except.ok (rows.map (fun r =>
      [("role_id", SqlValue.intV r.role_id), ("name", SqlValue.strV r.name),
       ("description", SqlValue.strV r.description)]), db)

/-- `get_role_by_id` (lines 255-270): read-only single-row lookup. -/
def get_role_by_id (db : DB) (role_id : Int) :
    Except DbExc (Option (List (String × SqlValue)) × DB) :=
  if role_id ≤ 0 then
    Except.error (DbExc.valueError "role_id must be a positive integer")
  else
    match db.roles.find? (fun r => r.role_id == role_id) with
    | some r => Except.ok (some
        [("role_id", SqlValue.intV r.role_id), ("name", SqlValue.strV r.name),
         ("description", SqlValue.strV r.description)], db)
    | none => Except.ok (none, db)

/-- `assign_role_to_conversation` (lines 272-302).  After validation, line
    283's conversation check `SELECT ... FOR UPDATE` raises the FOR UPDATE
    syntax error for every store state; the referential ValueErrors of
    lines 285/290, the UPDATE of line 292 and the rowcount check of line
    295 are unreachable (the body contains no `log_action` call anywhere). -/
def assign_role_to_conversation (db : DB) (conversation_id role_id : Int) :
    Except DbExc (Unit × DB) :=
  if conversation_id ≤ 0 then
    Except.error (DbExc.valueError "conversation_id must be a positive integer")
  else if role_id ≤ 0 then
    Except.error (DbExc.valueError "role_id must be a positive integer")
  else
    Except.error forUpdateSyntaxError

/-- `create_conversation` (lines 338-365).  After validation the clock is
    read (line 344, still outside the transaction — parameter `now`); then
    line 349's `SELECT ... FOR UPDATE` user check raises the FOR UPDATE
    syntax error for every store state, so the conversation INSERT and the
    "Conversation started" `log_action` (whose own clock reading would be
    `log_now`) of lines 353-361 are unreachable. -/
def create_conversation (now log_now : String) (db : DB) (user_id : Int) :
    Except DbExc (Int × DB) :=
  if user_id ≤ 0 then
    Except.error (DbExc.valueError "user_id must be a positive integer")
  else
    Except.error forUpdateSyntaxError

/-- `add_message` (lines 369-403).  After validation the clock is read
    (line 381, outside the transaction — parameter `now`); then line 386's
    `SELECT ... FOR UPDATE` conversation check raises the FOR UPDATE syntax
    error for every store state, so the message INSERT and the
    "Message added" `log_action` (own clock reading `log_now`, content
    truncated to 50 characters) of lines 390-399 are unreachable. -/
def add_message (now log_now : String) (db : DB) (conversation_id : Int)
    (role content model : String) : Except DbExc (Int × DB) :=
  if conversation_id ≤ 0 then
    Except.error (DbExc.valueError "conversation_id must be a positive integer")
  else if pyStrip role = "" then
    Except.error (DbExc.valueError "role must be a non-empty string")
  else if pyStrip model = "" then
    Except.error (DbExc.valueError "model must be a non-empty string")
  else
    Except.error forUpdateSyntaxError

/-- `get_conversations_by_user` (lines 445-460): read-only, rows
    `{conversation_id, start_time}` ordered by start_time descending. -/
def get_conversations_by_user (db : DB) (user_id : Int) :
    Except DbExc (List (List (String × SqlValue)) × DB) :=
  if user_id ≤ 0 then
    Except.error (DbExc.valueError "user_id must be a positive integer")
  else
    let rows := orderByLe (fun c1 c2 => sqlTextLe c2.start_time c1.start_time)
      (db.conversations.filter (fun c => c.user_id == user_id))
    Except.ok (rows.map (fun c =>
      [("conversation_id", SqlValue.intV c.conversation_id),
       ("start_time", SqlValue.strV c.start_time)]), db)

/-- `get_messages_by_conversation` (lines 462-477): read-only, rows
    `{role, content, model, timestamp}` ordered by timestamp ascending. -/
def get_messages_by_conversation (db : DB) (conversation_id : Int) :
    Except DbExc (List (List (String × SqlValue)) × DB) :=
  if conversation_id ≤ 0 then
    Except.error (DbExc.valueError "conversation_id must be a positive integer")
  else
    let rows := orderByLe (fun m1 m2 => sqlTextLe m1.timestamp m2.timestamp)
      (db.messages.filter (fun m => m.conversation_id == conversation_id))
    Except.ok (rows.map (fun m =>
      [("role", SqlValue.strV m.role), ("content", SqlValue.strV m.content),
       ("model", SqlValue.strV m.model), ("timestamp", SqlValue.strV m.timestamp)]), db)

/-- `create_conversation_with_message` (lines 480-525).  After validation,
    line 495's `SELECT ... FOR UPDATE` user check raises the FOR UPDATE
    syntax error for every store state: the single clock reading of line
    500, the conversation INSERT, the message INSERT and the combined
    `log_action` of lines 500-518 are all unreachable (`now` and `log_now`
    are the readings those unreachable statements would take). -/
def create_conversation_with_message (now log_now : String) (db : DB)
    (user_id : Int) (role content model : String) : Except DbExc ((Int × Int) × DB) :=
  if user_id ≤ 0 then
    Except.error (DbExc.valueError "user_id must be a positive integer")
  else if pyStrip role = "" then
    Except.error (DbExc.valueError "role must be a non-empty string")
  else if pyStrip model = "" then
    Except.error (DbExc.valueError "model must be a non-empty string")
  else
    Except.error forUpdateSyntaxError

/-! ### Transactional connection scope exit
(`DatabaseConnection.__exit__`, src/services/database.py lines 77-99) -/

/-- What became of the transaction when the scope exited. -/
inductive TxDisposition where
  | committed
  | rolledBack
  /-- neither COMMIT nor any ROLLBACK statement executed successfully -/
  | unresolved
  /-- the guard `self.conn and self._transaction_started` was false: nothing done -/
  | noCleanup
deriving Repr, DecidableEq

structure ExitResult where
  closed : Bool
  commit_attempted : Bool
  rollback_attempted : Bool
  disposition : TxDisposition
  propagated : Option String
deriving Repr, DecidableEq

/-- `DatabaseConnection.__exit__` (lines 77-99).  `exc` is the exception the
    enclosed block raised (`none` if it completed normally);
    `primary_raises` says whether the COMMIT (line 83) or ROLLBACK (line 87)
    executed first itself raises an `sqlite3.Error`, and `recovery_raises`
    whether the forced ROLLBACK of line 94 raises (its exception is
    swallowed by the bare except).  `__exit__` returns `None`, so the
    block's exception always propagates to the caller; the `finally` block
    closes the connection on every path through the cleanup. -/
def connection_exit (conn_present transaction_started : Bool)
    (primary_raises recovery_raises : Bool) (exc : Option String) : ExitResult :=
  if conn_present && transaction_started then
    { closed := true
      commit_attempted := exc.isNone
      rollback_attempted := exc.isSome || primary_raises
      disposition :=
        if !primary_raises then
          match exc with
          | none => TxDisposition.committed
          | some _ => TxDisposition.rolledBack
        else if !recovery_raises then TxDisposition.rolledBack
        else TxDisposition.unresolved
      propagated := exc }
  else
    { closed := false, commit_attempted := false, rollback_attempted := false,
      disposition := TxDisposition.noCleanup, propagated := exc }

/-! ### Helper lemmas and sample databases -/

/-- Is the operation's outcome a commit? -/
def isOk {ε α : Type} : Except ε α → Bool
  | Except.ok _ => true
  | Except.error _ => false

/-- Sorting by insertion leaves a list alone that is already pairwise
    ordered by `le`. -/
theorem orderByLe_eq_self {α : Type} (le : α → α → Bool) (l : List α)
    (h : l.Chain' (fun a b => le a b = true)) : orderByLe le l = l := by
  induction l with
  | nil => rfl
  | cons a as ih =>
      rw [List.chain'_cons'] at h
      rw [orderByLe, ih h.2]
      cases as with
      | nil => rfl
      | cons b bs =>
          rw [insertByLe, if_pos (h.1 b rfl)]

theorem sqlTextLt_le {a b : String} (h : sqlTextLt a b = true) : sqlTextLe a b = true := by
  unfold sqlTextLt at h
  exact (Bool.and_eq_true_iff.mp h).1

/-- The empty store (fresh schema). -/
def dbEmpty : DB :=
  { users := [], roles := [], conversations := [], messages := [], logs := [] }

/-- A store holding a single user alice (id 1). -/
def dbAlice : DB :=
  { dbEmpty with users := [⟨1, "alice"⟩], next_user_id := 2 }

/-- A store holding user alice, her role Pirate (id 1) and one roleless
    conversation (id 1). -/
def dbFull : DB :=
  { dbAlice with
    roles := [⟨1, 1, "Pirate", "Talk like a pirate."⟩],
    conversations := [⟨1, 1, "2024-01-01T10:00:00", none⟩],
    next_role_id := 2, next_conversation_id := 2 }

/-- dbFull with two messages of conversation 1, timestamps increasing. -/
def dbMsgs : DB :=
  { dbFull with
    messages :=
      [⟨1, 1, "user", "Ahoy!", "user_input", "2024-01-01T10:00:01"⟩,
       ⟨2, 1, "assistant", "Arr, hello!", "deepseekchimera", "2024-01-01T10:00:02"⟩],
    next_message_id := 3 }

/-- dbFull with role 1 recorded as assigned on conversation 1 — a store
    state in which the conversations.role_id column is set. -/
def dbFullAssigned : DB :=
  { dbFull with conversations := [⟨1, 1, "2024-01-01T10:00:00", some 1⟩] }

/-! ### C7 -/

/-- C7: on every scope exit of the transactional connection (entered with a
    live connection and a started transaction): the connection is closed on
    every path; if the enclosed block completed without raising, the COMMIT
    is issued and — when the engine accepts it — the transaction is
    committed; if the block raised, a rollback is issued and the exception
    propagates to the caller, whatever the cleanup faults. -/
theorem connection_exit_scoped_release :
    ∀ (primary_raises recovery_raises : Bool) (exc : Option String),
      (connection_exit true true primary_raises recovery_raises exc).closed = true ∧
      (exc = none →
        (connection_exit true true primary_raises recovery_raises exc).commit_attempted = true ∧
        (primary_raises = false →
          (connection_exit true true primary_raises recovery_raises exc).disposition =
            TxDisposition.committed)) ∧
      (∀ e, exc = some e →
        (connection_exit true true primary_raises recovery_raises exc).rollback_attempted = true ∧
        (connection_exit true true primary_raises recovery_raises exc).propagated = some e) := by
  intro p r exc
  refine ⟨by simp [connection_exit], ?_, ?_⟩
  · rintro rfl
    refine ⟨by simp [connection_exit], ?_⟩
    rintro rfl
    simp [connection_exit]
  · rintro e rfl
    exact ⟨by simp [connection_exit], by simp [connection_exit]⟩

/-- Witness for C7: a committing exit, and an exit where the block raised
    and both cleanup statements fail. -/
theorem connection_exit_scoped_release_witness :
    (connection_exit true true false false none).closed = true ∧
    (connection_exit true true false false none).disposition = TxDisposition.committed ∧
    (connection_exit true true true true (some "ValueError")).closed = true ∧
    (connection_exit true true true true (some "ValueError")).rollback_attempted = true ∧
    (connection_exit true true true true (some "ValueError")).propagated = some "ValueError" :=
  ⟨(connection_exit_scoped_release false false none).1,
   ((connection_exit_scoped_release false false none).2.1 rfl).2 rfl,
   (connection_exit_scoped_release true true (some "ValueError")).1,
   ((connection_exit_scoped_release true true (some "ValueError")).2.2 "ValueError" rfl).1,
   ((connection_exit_scoped_release true true (some "ValueError")).2.2 "ValueError" rfl).2⟩

/-! ### C10 -/

/-- C10: every row returned by `get_conversations_by_user` has exactly the
    fields conversation_id and start_time, and in particular no role_id
    field — whatever the stored conversations, roles assigned or not. -/
theorem get_conversations_fields :
    ∀ (db : DB) (user_id : Int) (rows : List (List (String × SqlValue))) (db' : DB),
      get_conversations_by_user db user_id = Except.ok (rows, db') →
      ∀ row ∈ rows, row.map Prod.fst = ["conversation_id", "start_time"] ∧
        ¬ ("role_id" ∈ row.map Prod.fst) := by
  intro db user_id rows db' h row hrow
  unfold get_conversations_by_user at h
  split at h
  · exact Except.noConfusion h
  · simp only [Except.ok.injEq, Prod.mk.injEq] at h
    obtain ⟨hrows, -⟩ := h
    subst hrows
    simp only [List.mem_map] at hrow
    obtain ⟨c, -, rfl⟩ := hrow
    refine ⟨rfl, ?_⟩
    simp

/-- Witness for C10: in a store whose only conversation has a role
    assigned, the returned row still has only the two fields. -/
theorem get_conversations_fields_witness :
    ([("conversation_id", SqlValue.intV 1),
      ("start_time", SqlValue.strV "2024-01-01T10:00:00")].map Prod.fst =
        ["conversation_id", "start_time"]) ∧
    ¬ ("role_id" ∈ [("conversation_id", SqlValue.intV 1),
      ("start_time", SqlValue.strV "2024-01-01T10:00:00")].map Prod.fst) :=
  get_conversations_fields dbFullAssigned 1
    [[("conversation_id", SqlValue.intV 1),
      ("start_time", SqlValue.strV "2024-01-01T10:00:00")]]
    dbFullAssigned (by decide)
    [("conversation_id", SqlValue.intV 1),
     ("start_time", SqlValue.strV "2024-01-01T10:00:00")] (by decide)

/-! ### C9 -/

/-- C9 (code bug): the claimed property ranges over successful calls of
    `create_conversation_with_message`, but the program admits none: every
    call raises at the line 495 FOR UPDATE user check, before the single
    clock reading of line 500 is even taken, so no conversation or message
    row — let alone a pair with the identical timestamp — is ever stored.
    (On the unreachable success path the one `now` of line 500 would
    indeed stamp both rows.) -/
theorem conversation_message_timestamp_unreachable :
    (∀ (now log_now : String) (db : DB) (user_id : Int) (role content model : String),
      isOk (create_conversation_with_message now log_now db user_id role content model)
        = false) ∧
    create_conversation_with_message "TS" "TL" dbAlice 1 "user" "Ahoy!" "user_input" =
      Except.error forUpdateSyntaxError := by
  refine ⟨?_, rfl⟩
  intro now log_now db user_id role content model
  unfold create_conversation_with_message
  repeat' split
  all_goals rfl

/-! ### C3 -/

/-- C3 (code bug): the claim describes a failure of a step after the
    conversation insert, but no call ever reaches that insert: every call
    fails already at the line 495 FOR UPDATE user check.  Every call
    therefore fails, and every (hence every failing) call leaves the
    caller's conversation count unchanged — the rollback semantics is
    sound, but the post-insert failure path the claim describes does not
    exist in the program. -/
theorem create_conversation_with_message_bug :
    (∀ (now log_now : String) (db : DB) (user_id : Int) (role content model : String),
      isOk (create_conversation_with_message now log_now db user_id role content model)
        = false ∧
      conversationCount
        (afterDB (create_conversation_with_message now log_now db user_id role content model)
          db) user_id = conversationCount db user_id) ∧
    create_conversation_with_message "TS" "TL" dbAlice 1 "user" "hi" "m" =
      Except.error forUpdateSyntaxError := by
  refine ⟨?_, rfl⟩
  intro now log_now db user_id role content model
  unfold create_conversation_with_message
  repeat' split
  all_goals exact ⟨rfl, rfl⟩

/-! ### C5 -/

/-- C5 (code bug): `assign_role_to_conversation` raises the FOR UPDATE
    syntax error of line 283 before any referential check or UPDATE runs,
    for every store and every pair of valid identifiers: the referential
    ValueError the claim describes is never raised, and
    `conversations.role_id` is never updated.  In dbFull conversation 1
    exists, role 2 is absent and role 1 present; both calls below fail with
    the same operational error and leave the conversations table
    unchanged. -/
theorem assign_role_for_update_bug :
    (∀ (db : DB) (conversation_id role_id : Int),
      isOk (assign_role_to_conversation db conversation_id role_id) = false) ∧
    assign_role_to_conversation dbFull 1 2 = Except.error forUpdateSyntaxError ∧
    assign_role_to_conversation dbFull 1 1 = Except.error forUpdateSyntaxError ∧
    (afterDB (assign_role_to_conversation dbFull 1 2) dbFull).conversations =
      dbFull.conversations ∧
    (afterDB (assign_role_to_conversation dbFull 1 1) dbFull).conversations =
      dbFull.conversations := by
  refine ⟨?_, rfl, rfl, rfl, rfl⟩
  intro db conversation_id role_id
  unfold assign_role_to_conversation
  repeat' split
  all_goals rfl

/-! ### C6 -/

/-- C6: every data-access operation rejects an invalid scalar input (a
    non-positive identifier, or a required non-blank string that is empty
    after trimming) with the input-validation ValueError, before the
    transaction opens: the result is the same for every store state and no
    side effect reaches it. -/
theorem validation_before_transaction :
    (∀ (log_now : String) (db : DB) (username : String), pyStrip username = "" →
      get_user_id log_now db username =
        Except.error (DbExc.valueError "username must be a non-empty string")) ∧
    (∀ (db : DB) (user_id : Int) (name description : String), user_id ≤ 0 →
      create_role db user_id name description =
        Except.error (DbExc.valueError "user_id must be a positive integer")) ∧
    (∀ (db : DB) (user_id : Int) (name description : String), 0 < user_id →
      pyStrip name = "" →
      create_role db user_id name description =
        Except.error (DbExc.valueError "name must be a non-empty string")) ∧
    (∀ (db : DB) (user_id : Int), user_id ≤ 0 →
      get_roles_by_user db user_id =
        Except.error (DbExc.valueError "user_id must be a positive integer")) ∧
    (∀ (db : DB) (role_id : Int), role_id ≤ 0 →
      get_role_by_id db role_id =
        Except.error (DbExc.valueError "role_id must be a positive integer")) ∧
    (∀ (db : DB) (conversation_id role_id : Int), conversation_id ≤ 0 →
      assign_role_to_conversation db conversation_id role_id =
        Except.error (DbExc.valueError "conversation_id must be a positive integer")) ∧
    (∀ (db : DB) (conversation_id role_id : Int), 0 < conversation_id → role_id ≤ 0 →
      assign_role_to_conversation db conversation_id role_id =
        Except.error (DbExc.valueError "role_id must be a positive integer")) ∧
    (∀ (now log_now : String) (db : DB) (user_id : Int), user_id ≤ 0 →
      create_conversation now log_now db user_id =
        Except.error (DbExc.valueError "user_id must be a positive integer")) ∧
    (∀ (now log_now : String) (db : DB) (conversation_id : Int) (role content model : String),
      conversation_id ≤ 0 →
      add_message now log_now db conversation_id role content model =
        Except.error (DbExc.valueError "conversation_id must be a positive integer")) ∧
    (∀ (now log_now : String) (db : DB) (conversation_id : Int) (role content model : String),
      0 < conversation_id → pyStrip role = "" →
      add_message now log_now db conversation_id role content model =
        Except.error (DbExc.valueError "role must be a non-empty string")) ∧
    (∀ (now log_now : String) (db : DB) (conversation_id : Int) (role content model : String),
      0 < conversation_id → ¬ pyStrip role = "" → pyStrip model = "" →
      add_message now log_now db conversation_id role content model =
        Except.error (DbExc.valueError "model must be a non-empty string")) ∧
    (∀ (db : DB) (user_id : Int), user_id ≤ 0 →
      get_conversations_by_user db user_id =
        Except.error (DbExc.valueError "user_id must be a positive integer")) ∧
    (∀ (db : DB) (conversation_id : Int), conversation_id ≤ 0 →
      get_messages_by_conversation db conversation_id =
        Except.error (DbExc.valueError "conversation_id must be a positive integer")) ∧
    (∀ (now action details : String) (db : DB), pyStrip action = "" →
      log_action now action details db =
        Except.error (DbExc.valueError "action must be a non-empty string")) ∧
    (∀ (now log_now : String) (db : DB) (user_id : Int) (role content model : String),
      user_id ≤ 0 →
      create_conversation_with_message now log_now db user_id role content model =
        Except.error (DbExc.valueError "user_id must be a positive integer")) := by
  refine ⟨?_, ?_, ?_, ?_, ?_, ?_, ?_, ?_, ?_, ?_, ?_, ?_, ?_, ?_, ?_⟩
  · intro log_now db username h
    unfold get_user_id
    rw [if_pos h]
  · intro db user_id name description h
    unfold create_role
    rw [if_pos h]
  · intro db user_id name description h1 h2
    unfold create_role
    rw [if_neg (not_le.mpr h1), if_pos h2]
  · intro db user_id h
    unfold get_roles_by_user
    rw [if_pos h]
  · intro db role_id h
    unfold get_role_by_id
    rw [if_pos h]
  · intro db conversation_id role_id h
    unfold assign_role_to_conversation
    rw [if_pos h]
  · intro db conversation_id role_id h1 h2
    unfold assign_role_to_conversation
    rw [if_neg (not_le.mpr h1), if_pos h2]
  · intro now log_now db user_id h
    unfold create_conversation
    rw [if_pos h]
  · intro now log_now db conversation_id role content model h
    unfold add_message
    rw [if_pos h]
  · intro now log_now db conversation_id role content model h1 h2
    unfold add_message
    rw [if_neg (not_le.mpr h1), if_pos h2]
  · intro now log_now db conversation_id role content model h1 h2 h3
    unfold add_message
    rw [if_neg (not_le.mpr h1), if_neg h2, if_pos h3]
  · intro db user_id h
    unfold get_conversations_by_user
    rw [if_pos h]
  · intro db conversation_id h
    unfold get_messages_by_conversation
    rw [if_pos h]
  · intro now action details db h
    unfold log_action
    rw [if_pos h]
  · intro now log_now db user_id role content model h
    unfold create_conversation_with_message
    rw [if_pos h]

/-- Witness for C6: each validation conjunct evaluated at a concrete
    invalid input (the result is independent of the store, shown here on
    concrete stores). -/
theorem validation_before_transaction_witness :
    get_user_id "TL" dbEmpty "   " =
      Except.error (DbExc.valueError "username must be a non-empty string") ∧
    create_role dbEmpty 0 "Pirate" "d" =
      Except.error (DbExc.valueError "user_id must be a positive integer") ∧
    create_role dbAlice 1 "  " "d" =
      Except.error (DbExc.valueError "name must be a non-empty string") ∧
    get_roles_by_user dbEmpty 0 =
      Except.error (DbExc.valueError "user_id must be a positive integer") ∧
    get_role_by_id dbEmpty (-1) =
      Except.error (DbExc.valueError "role_id must be a positive integer") ∧
    assign_role_to_conversation dbEmpty 0 1 =
      Except.error (DbExc.valueError "conversation_id must be a positive integer") ∧
    assign_role_to_conversation dbEmpty 1 0 =
      Except.error (DbExc.valueError "role_id must be a positive integer") ∧
    create_conversation "TS" "TL" dbEmpty 0 =
      Except.error (DbExc.valueError "user_id must be a positive integer") ∧
    add_message "TS" "TL" dbEmpty 0 "user" "c" "m" =
      Except.error (DbExc.valueError "conversation_id must be a positive integer") ∧
    add_message "TS" "TL" dbEmpty 1 " " "c" "m" =
      Except.error (DbExc.valueError "role must be a non-empty string") ∧
    add_message "TS" "TL" dbEmpty 1 "user" "c" "" =
      Except.error (DbExc.valueError "model must be a non-empty string") ∧
    get_conversations_by_user dbEmpty 0 =
      Except.error (DbExc.valueError "user_id must be a positive integer") ∧
    get_messages_by_conversation dbEmpty 0 =
      Except.error (DbExc.valueError "conversation_id must be a positive integer") ∧
    log_action "TL" "" "d" dbEmpty =
      Except.error (DbExc.valueError "action must be a non-empty string") ∧
    create_conversation_with_message "TS" "TL" dbEmpty 0 "user" "c" "m" =
      Except.error (DbExc.valueError "user_id must be a positive integer") :=
  ⟨validation_before_transaction.1 "TL" dbEmpty "   " (by decide),
   validation_before_transaction.2.1 dbEmpty 0 "Pirate" "d" (by decide),
   validation_before_transaction.2.2.1 dbAlice 1 "  " "d" (by decide) (by decide),
   validation_before_transaction.2.2.2.1 dbEmpty 0 (by decide),
   validation_before_transaction.2.2.2.2.1 dbEmpty (-1) (by decide),
   validation_before_transaction.2.2.2.2.2.1 dbEmpty 0 1 (by decide),
   validation_before_transaction.2.2.2.2.2.2.1 dbEmpty 1 0 (by decide) (by decide),
   validation_before_transaction.2.2.2.2.2.2.2.1 "TS" "TL" dbEmpty 0 (by decide),
   validation_before_transaction.2.2.2.2.2.2.2.2.1 "TS" "TL" dbEmpty 0 "user" "c" "m" (by decide),
   validation_before_transaction.2.2.2.2.2.2.2.2.2.1 "TS" "TL" dbEmpty 1 " " "c" "m"
     (by decide) (by decide),
   validation_before_transaction.2.2.2.2.2.2.2.2.2.2.1 "TS" "TL" dbEmpty 1 "user" "c" ""
     (by decide) (by decide) (by decide),
   validation_before_transaction.2.2.2.2.2.2.2.2.2.2.2.1 dbEmpty 0 (by decide),
   validation_before_transaction.2.2.2.2.2.2.2.2.2.2.2.2.1 dbEmpty 0 (by decide),
   validation_before_transaction.2.2.2.2.2.2.2.2.2.2.2.2.2.1 "TL" "" "d" dbEmpty (by decide),
   validation_before_transaction.2.2.2.2.2.2.2.2.2.2.2.2.2.2 "TS" "TL" dbEmpty 0 "user" "c" "m"
     (by decide)⟩

/-! ### C2 -/

/-- C2 (code bug): with valid inputs every mutating operation the claim
    names raises the FOR UPDATE syntax error of its first in-transaction
    statement and commits nothing — no mutation ever succeeds, so none of
    them ever writes a log row and the log table never changes.
    (Additionally, even the unreachable success paths of `create_role` and
    `assign_role_to_conversation` contain no `log_action` call in the
    source.)  The claim's "exactly one log row per successful mutation"
    describes executions the program cannot perform. -/
theorem audit_log_for_update_bug :
    (∀ (db : DB) (user_id : Int) (name description : String),
      isOk (create_role db user_id name description) = false) ∧
    get_user_id "TL" dbAlice "alice" = Except.error forUpdateSyntaxError ∧
    create_role dbAlice 1 "Pirate" "arr" = Except.error forUpdateSyntaxError ∧
    create_conversation "TS" "TL" dbAlice 1 = Except.error forUpdateSyntaxError ∧
    add_message "TS" "TL" dbFull 1 "user" "hi" "m" = Except.error forUpdateSyntaxError ∧
    assign_role_to_conversation dbFull 1 1 = Except.error forUpdateSyntaxError ∧
    create_conversation_with_message "TS" "TL" dbAlice 1 "user" "hi" "m" =
      Except.error forUpdateSyntaxError ∧
    (afterDB (get_user_id "TL" dbAlice "alice") dbAlice).logs = dbAlice.logs ∧
    (afterDB (create_role dbAlice 1 "Pirate" "arr") dbAlice).logs = dbAlice.logs ∧
    (afterDB (create_conversation "TS" "TL" dbAlice 1) dbAlice).logs = dbAlice.logs ∧
    (afterDB (add_message "TS" "TL" dbFull 1 "user" "hi" "m") dbFull).logs =
      dbFull.logs ∧
    (afterDB (assign_role_to_conversation dbFull 1 1) dbFull).logs = dbFull.logs ∧
    (afterDB (create_conversation_with_message "TS" "TL" dbAlice 1 "user" "hi" "m")
        dbAlice).logs = dbAlice.logs := by
  refine ⟨?_, rfl, rfl, rfl, rfl, rfl, rfl, rfl, rfl, rfl, rfl, rfl, rfl⟩
  intro db user_id name description
  unfold create_role
  repeat' split
  all_goals rfl

/-! ### C4 -/

/-- C4 (code bug): `get_user_id` never succeeds — for every store and every
    username it either fails validation or raises the FOR UPDATE syntax
    error of line 314 — so it never returns an identifier, never creates a
    user row and never writes the "User created" log entry, contradicting
    its own docstring ("Gets or creates a user and returns the user ID")
    and the claimed idempotent get-or-create behaviour.  Two consecutive
    calls on the empty store both raise and leave the store unchanged. -/
theorem get_user_id_for_update_bug :
    (∀ (log_now : String) (db : DB) (username : String),
      isOk (get_user_id log_now db username) = false) ∧
    get_user_id "TL1" dbEmpty "alice" = Except.error forUpdateSyntaxError ∧
    get_user_id "TL2" (afterDB (get_user_id "TL1" dbEmpty "alice") dbEmpty) "alice" =
      Except.error forUpdateSyntaxError ∧
    (afterDB (get_user_id "TL1" dbEmpty "alice") dbEmpty).users.length =
      dbEmpty.users.length ∧
    (afterDB (get_user_id "TL1" dbEmpty "alice") dbEmpty).logs = dbEmpty.logs := by
  refine ⟨?_, rfl, rfl, rfl, rfl⟩
  intro log_now db username
  unfold get_user_id
  repeat' split
  all_goals rfl

/-! ### C8 -/

/-- C8: if the messages of a conversation, in insertion (table) order,
    carry strictly increasing timestamps, `get_messages_by_conversation`
    returns exactly those messages in that same order (ORDER BY timestamp
    ascending leaves an already-ascending sequence unchanged). -/
theorem get_messages_ordering :
    ∀ (db : DB) (conversation_id : Int),
      0 < conversation_id →
      List.Chain' (fun m1 m2 => sqlTextLt m1.timestamp m2.timestamp = true)
        (db.messages.filter (fun m => m.conversation_id == conversation_id)) →
      get_messages_by_conversation db conversation_id =
        Except.ok ((db.messages.filter (fun m => m.conversation_id == conversation_id)).map
          (fun m => [("role", SqlValue.strV m.role), ("content", SqlValue.strV m.content),
                     ("model", SqlValue.strV m.model),
                     ("timestamp", SqlValue.strV m.timestamp)]), db) := by
  intro db conversation_id h1 hchain
  unfold get_messages_by_conversation
  rw [if_neg (not_le.mpr h1)]
  simp only []
  rw [orderByLe_eq_self _ _
    (List.Chain'.imp (fun a b hab => sqlTextLt_le hab) hchain)]

/-- Witness for C8: the two-message conversation of dbMsgs, inserted with
    strictly increasing timestamps, comes back in insertion order. -/
theorem get_messages_ordering_witness :
    get_messages_by_conversation dbMsgs 1 =
      Except.ok ((dbMsgs.messages.filter (fun m => m.conversation_id == 1)).map
        (fun m => [("role", SqlValue.strV m.role), ("content", SqlValue.strV m.content),
                   ("model", SqlValue.strV m.model),
                   ("timestamp", SqlValue.strV m.timestamp)]), dbMsgs) :=
  get_messages_ordering dbMsgs 1 (by decide)
    (List.chain'_cons.mpr ⟨by decide, List.chain'_singleton _⟩)
